import Mathlib

/-!
Verification of the streaming chat-completion client in `codex-rs`
(`core/src/chat_completions.rs` and `core/src/auth_utils.rs`).

The embedding is shallow: the pure protocol logic (retry loop, SSE frame
decoding, aggregation adapter, token handling) is translated into executable
Lean functions.  External effects are turned into explicit parameters:

* the HTTP layer becomes a function `responses : Nat → SendOutcome` giving the
  outcome of each send attempt (1-based attempt numbers), and the retry loop
  returns a `DispatchTrace` recording how many sends happened, which sleeps
  were performed (in milliseconds) and the final result;
* the byte/SSE framing layer (the external `eventsource_stream` crate) is
  abstracted to a list of already-framed `data:` payload strings, optionally
  ending in a transport error; the per-frame idle-timeout watchdog is a
  real-time construct and is not modelled (no claim below depends on it);
* `tokio` channels and `Stream` polling become list processing; the
  aggregation adapter's `poll_next` acts on an explicit state plus the list of
  not-yet-consumed source items;
* clock instants (`chrono::DateTime<Utc>`) are modelled as integer second
  timestamps, and `Utc::now()` becomes an explicit `now` argument;
* environment variables and the local `hosts.json` artifact become `Option
  String` parameters, and the HTTPS token-exchange request becomes a function
  `exchange : String → ExchangeOutcome`.
-/

namespace Codex

/-- Modelled from the spec: `ContentItem` (`models.rs` is not under `src/`).
`InputText`/`OutputText` carry text; further variants exist for forward
compatibility and are ignored by the encoder and the adapter, which is what
the catch-all `otherContent` constructor stands for. -/
inductive ContentItem where
  | inputText (text : String)
  | outputText (text : String)
  | otherContent
  deriving DecidableEq, Repr

/-- Modelled from the spec: `ResponseItem` (`models.rs` is not under `src/`).
The code only ever constructs and matches the `Message` variant; `otherItem`
stands for the remaining (non-message) variants that the adapter's
`if let ResponseItem::Message { .. }` does not match. -/
inductive ResponseItem where
  | message (role : String) (content : List ContentItem)
  | otherItem
  deriving DecidableEq, Repr

/-- Modelled from the spec: `ResponseEvent` / `InternalEvent`
(`client_common.rs` is not under `src/`): the normalized internal event
vocabulary `OutputItemDone(Message) | Completed(response_id)`. -/
inductive ResponseEvent where
  | outputItemDone (item : ResponseItem)
  | completed (response_id : String)
  deriving DecidableEq, Repr

/-- Modelled from the spec: the `CodexErr` taxonomy of §7 (`error.rs` is not
under `src/`): `Transport · UnexpectedStatus(status, body) · RetryLimit(status)
· Stream(detail) · Auth(detail)`.  HTTP status codes are plain naturals. -/
inductive CodexErr where
  | transport (detail : String)
  | unexpectedStatus (status : Nat) (body : String)
  | retryLimit (status : Nat)
  | stream (detail : String)
  | auth (detail : String)
  deriving DecidableEq, Repr

/-! ## Request dispatcher (`stream_chat_completions`, chat_completions.rs:78-129,
and the identical loop of `stream_github_copilot_completions`, lines 199-251) -/

/-- Outcome of one `send().await` as seen by the retry loop: a success-status
response, a response with some other status (carrying the optional
`Retry-After` header value and the drained body text), or a transport-level
error (`reqwest` error, no response received). -/
inductive SendOutcome where
  | success
  | httpResponse (status : Nat) (retryAfter : Option String) (body : String)
  | transportError (detail : String)
  deriving DecidableEq, Repr

/-- Final result of the dispatch loop: either the streaming phase started
(success status received) or the call failed with a `CodexErr`.  `outOfFuel`
is an artifact of the fuel-based recursion below and is unreachable from
`dispatchLoop` (the loop runs at most `maxRetries + 1` iterations). -/
inductive DispatchResult where
  | streamStarted
  | failed (e : CodexErr)
  | outOfFuel
  deriving DecidableEq, Repr

/-- Observable trace of one dispatch-loop execution: number of sends
performed, the sleeps (milliseconds, in order) between retries, and the final
result. -/
structure DispatchTrace where
  sends : Nat
  sleeps : List Nat
  result : DispatchResult
  deriving DecidableEq, Repr

/-- `status == StatusCode::TOO_MANY_REQUESTS || status.is_server_error()`
(chat_completions.rs:101): retryable statuses are 429 and 500..=599. -/
def isRetryableStatus (status : Nat) : Bool :=
  status == 429 || (500 ≤ status && status ≤ 599)

/-- Rust's `str::parse::<u64>()` (used on the `Retry-After` header value,
chat_completions.rs:114): an optional leading `+`, then one or more ASCII
digits, with the value required to fit in a `u64`. -/
def parse_u64 (s : String) : Option Nat :=
  let cs :=
    match s.toList with
    | '+' :: rest => rest
    | cs => cs
  if cs = [] then none
  else if cs.all (fun c => c.isDigit) then
    let n := cs.foldl (fun acc c => acc * 10 + (c.toNat - '0'.toNat)) 0
    if n < 2 ^ 64 then some n else none
  else none

/-- `res.headers().get(RETRY_AFTER).and_then(to_str).and_then(parse::<u64>)`
(chat_completions.rs:110-114).  Header values are modelled directly as
strings, so the `to_str` step is the identity. -/
def retryAfterSecs (retryAfter : Option String) : Option Nat :=
  retryAfter.bind parse_u64

/-- The body of the retry loop of `stream_chat_completions`
(chat_completions.rs:79-129) and of `stream_github_copilot_completions`
(chat_completions.rs:200-251), which are identical.  `attempt` is the loop
counter before the `attempt += 1` at the top of the iteration; `fuel` is the
structural-recursion bound (the loop provably performs at most
`maxRetries + 1` iterations, so `dispatchLoop` below starts with that much
fuel and `outOfFuel` never escapes).  The `Retry-After` conversion
`Duration::from_millis(s * 1_000)` multiplies in `u64`, which wraps modulo
`2^64` for `s ≥ 2^64 / 1000` (release-build semantics; a debug build would
panic on the overflow instead, which is not modelled). -/
def dispatchGo (maxRetries : Nat) (backoff : Nat → Nat) (responses : Nat → SendOutcome) :
    Nat → Nat → DispatchTrace
  | _, 0 => ⟨0, [], .outOfFuel⟩
  | attempt, fuel + 1 =>
    let a := attempt + 1
    match responses a with
    | .success => ⟨1, [], .streamStarted⟩
    | .httpResponse status retryAfter body =>
      if !isRetryableStatus status then
        ⟨1, [], .failed (.unexpectedStatus status body)⟩
      else if maxRetries < a then
        ⟨1, [], .failed (.retryLimit status)⟩
      else
        let delay :=
          match retryAfterSecs retryAfter with
          | some s => s * 1000 % 2 ^ 64
          | none => backoff a
        let rest := dispatchGo maxRetries backoff responses a fuel
        ⟨rest.sends + 1, delay :: rest.sleeps, rest.result⟩
    | .transportError detail =>
      if maxRetries < a then
        ⟨1, [], .failed (.transport detail)⟩
      else
        let rest := dispatchGo maxRetries backoff responses a fuel
        ⟨rest.sends + 1, backoff a :: rest.sleeps, rest.result⟩

/-- The retry loop, started with `attempt = 0` as in the source.
`maxRetries` is `*OPENAI_REQUEST_MAX_RETRIES` and `backoff` is the pure
delay function of `util.rs` (both outside `src/`), kept as parameters so that
every theorem below holds for all their values. -/
def dispatchLoop (maxRetries : Nat) (backoff : Nat → Nat)
    (responses : Nat → SendOutcome) : DispatchTrace :=
  dispatchGo maxRetries backoff responses 0 (maxRetries + 1)

/-! ## Token supplier (`auth_utils.rs`) -/

/-- `OAuthTokenResponse` (auth_utils.rs:24-27): the JSON body of a successful
token-exchange response, with `expires_at` in epoch seconds (`i64`). -/
structure OAuthTokenResponse where
  token : String
  expires_at : Int
  deriving DecidableEq, Repr

/-- `GithubCopilotToken` (auth_utils.rs:31-34).  The `chrono` instant
`expires_at` is modelled as an integer epoch-second timestamp. -/
structure GithubCopilotToken where
  api_key : String
  expires_at : Int
  deriving DecidableEq, Repr

/-- `GithubCopilotToken::is_valid` (auth_utils.rs:38-43): the token is valid
when `Utc::now() < expires_at - 5 minutes`; the ambient `Utc::now()` becomes
the explicit `now` argument (epoch seconds), and the five-minute buffer is
300 seconds (`chrono::Duration::from_std` succeeds on 300 s). -/
def GithubCopilotToken.is_valid (t : GithubCopilotToken) (now : Int) : Bool :=
  now < t.expires_at - 300

/-- `GithubCopilotToken::from_response` (auth_utils.rs:46-54).  The
out-of-range failure of `chrono::DateTime::from_timestamp` is not modelled
(no claim depends on it): timestamps are kept as integers. -/
def GithubCopilotToken.from_response (r : OAuthTokenResponse) : GithubCopilotToken :=
  ⟨r.token, r.expires_at⟩

/-- Outcome of the HTTPS GET against the fixed token-exchange endpoint
(auth_utils.rs:128-144): a success-status response whose JSON body parsed as
an `OAuthTokenResponse`, or a non-success response with its status and body
text. -/
inductive ExchangeOutcome where
  | success (response : OAuthTokenResponse)
  | httpFailure (status : Nat) (body : String)
  deriving DecidableEq, Repr

/-- `get_github_copilot_api_token` (auth_utils.rs:114-145).  The environment
variable `flags::GITHUB_COPILOT_TOKEN` and the locally discovered OAuth
artifact (`extract_github_oauth_token`, a filesystem concern) become the
parameters `envToken` and `localArtifact`; the network call becomes
`exchange`.  The first component of the result records, in order, the OAuth
credentials with which exchange requests were actually issued, so theorems
can observe whether the HTTPS exchange step was performed at all. -/
def get_github_copilot_api_token (envToken : Option String)
    (localArtifact : Option String) (exchange : String → ExchangeOutcome) :
    List String × Except String GithubCopilotToken :=
  let fromLocal : Except String String :=
    match localArtifact with
    | some a => .ok a
    | none => .error "GitHub Copilot OAuth token not found"
  let oauthToken : Except String String :=
    match envToken with
    | some t => if t ≠ "" then .ok t else fromLocal
    | none => fromLocal
  match oauthToken with
  | .error e => ([], .error e)
  | .ok oauth =>
    match exchange oauth with
    | .success r => ([oauth], .ok (GithubCopilotToken.from_response r))
    | .httpFailure status body =>
      ([oauth],
       .error ("Failed to get GitHub Copilot API token. Status: " ++ toString status
         ++ ", Body: " ++ body))

/-- The credential-resolution prologue of `stream_github_copilot_completions`
(chat_completions.rs:177-197): a static provider key wins outright; otherwise
the Copilot token is obtained, rejected with `UnexpectedStatus(401, ..)` when
no longer valid, and its `api_key` is used.  `providerApiKey` is the
`Ok`-value of `provider.api_key()` (`model_provider_info.rs` is outside
`src/`; its own error short-circuit is not needed by any claim). -/
def resolve_copilot_api_key (providerApiKey : Option String)
    (envToken localArtifact : Option String) (exchange : String → ExchangeOutcome)
    (now : Int) : Except CodexErr String :=
  match providerApiKey with
  | some key => .ok key
  | none =>
    match (get_github_copilot_api_token envToken localArtifact exchange).2 with
    | .error err => .error (.auth ("Failed to get GitHub Copilot token: " ++ err))
    | .ok tok =>
      if !tok.is_valid now then
        .error (.unexpectedStatus 401
          "GitHub Copilot token has expired, please refresh your login")
      else
        .ok tok.api_key

/-- `stream_github_copilot_completions` (chat_completions.rs:133-252) reduced
to its observable dispatch behaviour: resolve the bearer credential, then run
the retry loop.  A credential-resolution failure is returned before any send
attempt (`sends = 0`, no sleeps). -/
def stream_github_copilot_completions (providerApiKey : Option String)
    (envToken localArtifact : Option String) (exchange : String → ExchangeOutcome)
    (now : Int) (maxRetries : Nat) (backoff : Nat → Nat)
    (responses : Nat → SendOutcome) : DispatchTrace :=
  match resolve_copilot_api_key providerApiKey envToken localArtifact exchange now with
  | .error e => ⟨0, [], .failed e⟩
  | .ok _ => dispatchLoop maxRetries backoff responses

/-! ## JSON values and parsing

`process_chat_sse` hands each frame payload to `serde_json::from_str` and
walks the resulting `serde_json::Value`.  The crate is external, so the value
type and a strict-JSON recursive-descent parser are modelled here: one JSON
value per document, surrounding whitespace allowed, no trailing commas, no
control characters inside strings, `\uXXXX` escapes restricted to
non-surrogate code points (surrogate-pair decoding is not modelled; no claim
exercises it).  Number lexemes are validated against the JSON grammar and
kept as strings, since no claim inspects numeric values. -/

/-- JSON values.  Objects keep their members in source order; duplicate keys
are resolved by `Json.getField`, which returns the last binding, matching a
map built by successive inserts. -/
inductive Json where
  | null
  | bool (b : Bool)
  | num (lexeme : String)
  | str (s : String)
  | arr (items : List Json)
  | obj (fields : List (String × Json))
  deriving Repr

/-- JSON insignificant whitespace. -/
def jsonWs (c : Char) : Bool :=
  c == ' ' || c == '\t' || c == '\n' || c == '\r'

/-- Skip leading JSON whitespace. -/
def skipWs : List Char → List Char
  | [] => []
  | c :: cs => if jsonWs c then skipWs cs else c :: cs

/-- The `{` character, kept as a named constant. -/
def lbrace : Char := Char.ofNat 123

/-- The `}` character, kept as a named constant. -/
def rbrace : Char := Char.ofNat 125

/-- Value of one hexadecimal digit. -/
def hexDigitVal (c : Char) : Option Nat :=
  if '0' ≤ c ∧ c ≤ '9' then some (c.toNat - '0'.toNat)
  else if 'a' ≤ c ∧ c ≤ 'f' then some (c.toNat - 'a'.toNat + 10)
  else if 'A' ≤ c ∧ c ≤ 'F' then some (c.toNat - 'A'.toNat + 10)
  else none

/-- Parse the body of a JSON string (the opening quote already consumed),
returning the decoded string and the rest of the input. -/
def parseStrBody : Nat → List Char → String → Option (String × List Char)
  | 0, _, _ => none
  | fuel + 1, cs, acc =>
    match cs with
    | [] => none
    | '"' :: rest => some (acc, rest)
    | '\\' :: esc =>
      match esc with
      | '"' :: rest => parseStrBody fuel rest (acc.push '"')
      | '\\' :: rest => parseStrBody fuel rest (acc.push '\\')
      | '/' :: rest => parseStrBody fuel rest (acc.push '/')
      | 'b' :: rest => parseStrBody fuel rest (acc.push (Char.ofNat 8))
      | 'f' :: rest => parseStrBody fuel rest (acc.push (Char.ofNat 12))
      | 'n' :: rest => parseStrBody fuel rest (acc.push '\n')
      | 'r' :: rest => parseStrBody fuel rest (acc.push (Char.ofNat 13))
      | 't' :: rest => parseStrBody fuel rest (acc.push '\t')
      | 'u' :: h1 :: h2 :: h3 :: h4 :: rest =>
        match hexDigitVal h1, hexDigitVal h2, hexDigitVal h3, hexDigitVal h4 with
        | some a, some b, some c, some d =>
          let n := ((a * 16 + b) * 16 + c) * 16 + d
          if 0xD800 ≤ n ∧ n ≤ 0xDFFF then none
          else parseStrBody fuel rest (acc.push (Char.ofNat n))
        | _, _, _, _ => none
      | _ => none
    | c :: rest =>
      if c.toNat < 0x20 then none else parseStrBody fuel rest (acc.push c)

/-- Optional fraction part of a JSON number, returned as its lexeme. -/
def parseFracPart (cs : List Char) : Option (List Char × List Char) :=
  match cs with
  | '.' :: r =>
    let (ds, r2) := r.span (fun c => c.isDigit)
    if ds = [] then none else some ('.' :: ds, r2)
  | _ => some ([], cs)

/-- Optional exponent part of a JSON number, returned as its lexeme. -/
def parseExpPart (cs : List Char) : Option (List Char × List Char) :=
  match cs with
  | c :: r =>
    if c = 'e' ∨ c = 'E' then
      let (sign, r1) :=
        match r with
        | '+' :: r2 => (['+'], r2)
        | '-' :: r2 => (['-'], r2)
        | _ => (([] : List Char), r)
      let (ds, r2) := r1.span (fun d => d.isDigit)
      if ds = [] then none else some (c :: (sign ++ ds), r2)
    else some ([], cs)
  | [] => some ([], [])

/-- Parse one JSON number (grammar `-?(0|[1-9][0-9]*)(\.[0-9]+)?([eE][+-]?[0-9]+)?`),
returning its lexeme and the rest of the input. -/
def parseNumber (cs : List Char) : Option (String × List Char) :=
  let (neg, cs1) :=
    match cs with
    | '-' :: r => (['-'], r)
    | _ => (([] : List Char), cs)
  let intPart : Option (List Char × List Char) :=
    match cs1 with
    | '0' :: r => some (['0'], r)
    | c :: r =>
      if c.isDigit then
        let (ds, r2) := r.span (fun d => d.isDigit)
        some (c :: ds, r2)
      else none
    | [] => none
  match intPart with
  | none => none
  | some (ip, r1) =>
    match parseFracPart r1 with
    | none => none
    | some (fp, r2) =>
      match parseExpPart r2 with
      | none => none
      | some (ep, r3) => some (String.mk (neg ++ ip ++ fp ++ ep), r3)

mutual

/-- Parse one JSON value (leading whitespace allowed). -/
def parseVal : Nat → List Char → Option (Json × List Char)
  | 0, _ => none
  | fuel + 1, cs =>
    match skipWs cs with
    | [] => none
    | c :: rest =>
      if c = '"' then
        (parseStrBody (rest.length + 1) rest "").map (fun p => (.str p.1, p.2))
      else if c = 't' then
        match rest with
        | 'r' :: 'u' :: 'e' :: r => some (.bool true, r)
        | _ => none
      else if c = 'f' then
        match rest with
        | 'a' :: 'l' :: 's' :: 'e' :: r => some (.bool false, r)
        | _ => none
      else if c = 'n' then
        match rest with
        | 'u' :: 'l' :: 'l' :: r => some (.null, r)
        | _ => none
      else if c = '[' then
        match skipWs rest with
        | ']' :: r => some (.arr [], r)
        | r => (parseArrRest fuel r).map (fun p => (.arr p.1, p.2))
      else if c = lbrace then
        match skipWs rest with
        | d :: r =>
          if d = rbrace then some (.obj [], r)
          else (parseObjRest fuel (d :: r)).map (fun p => (.obj p.1, p.2))
        | [] => none
      else if c = '-' ∨ c.isDigit then
        (parseNumber (c :: rest)).map (fun p => (.num p.1, p.2))
      else none

/-- Parse the members of a non-empty JSON array (after `[`); expects at least
one element, then `,`-separated elements up to `]`. -/
def parseArrRest : Nat → List Char → Option (List Json × List Char)
  | 0, _ => none
  | fuel + 1, cs =>
    match parseVal fuel cs with
    | none => none
    | some (v, r1) =>
      match skipWs r1 with
      | ',' :: r2 => (parseArrRest fuel r2).map (fun p => (v :: p.1, p.2))
      | ']' :: r2 => some ([v], r2)
      | _ => none

/-- Parse the members of a non-empty JSON object (after the opening brace);
expects at least one `"key": value` member, then `,`-separated members up to
the closing brace. -/
def parseObjRest : Nat → List Char → Option (List (String × Json) × List Char)
  | 0, _ => none
  | fuel + 1, cs =>
    match skipWs cs with
    | '"' :: r0 =>
      match parseStrBody (r0.length + 1) r0 "" with
      | none => none
      | some (k, r1) =>
        match skipWs r1 with
        | ':' :: r2 =>
          match parseVal fuel r2 with
          | none => none
          | some (v, r3) =>
            match skipWs r3 with
            | ',' :: r4 => (parseObjRest fuel r4).map (fun p => ((k, v) :: p.1, p.2))
            | d :: r4 => if d = rbrace then some ([(k, v)], r4) else none
            | [] => none
        | _ => none
    | _ => none

end

/-- `serde_json::from_str::<Value>` on a frame payload: parse exactly one
JSON document, allowing surrounding whitespace.  The fuel `2 * |s| + 2`
dominates the recursion depth of any input of that length. -/
def Json.parse (s : String) : Option Json :=
  let cs := s.toList
  match parseVal (2 * cs.length + 2) cs with
  | some (v, rest) => if skipWs rest = [] then some v else none
  | none => none

/-- `Value::get(key)` on an object (`None` on any other value); with
duplicate keys the last binding wins, as in a map built by inserts. -/
def Json.getField : Json → String → Option Json
  | .obj kvs, k => kvs.foldl (fun acc kv => if kv.1 = k then some kv.2 else acc) none
  | _, _ => none

/-- `Value::get(index)` on an array (`None` on any other value). -/
def Json.getIdx : Json → Nat → Option Json
  | .arr xs, i => xs.get? i
  | _, _ => none

/-- `Value::as_str`. -/
def Json.asStr : Json → Option String
  | .str s => some s
  | _ => none

/-! ## Event decoder (`process_chat_sse`, chat_completions.rs:257-323) -/

/-- One item produced by the SSE framing layer (the external
`eventsource_stream` crate): a frame with its `data:` payload, or a
transport-level stream error.  The idle-timeout watchdog is real-time
behaviour and is outside this embedding. -/
inductive SseItem where
  | frame (data : String)
  | transportError (detail : String)
  deriving DecidableEq, Repr

/-- Rust's `str::trim`, applied to a frame payload before the `[DONE]`
comparison (chat_completions.rs:290): strip leading and trailing whitespace.
Modelled over `Char.isWhitespace` (space, tab, CR, LF); Rust trims the full
Unicode White_Space class, which no claim distinguishes. -/
def rust_trim (s : String) : String :=
  String.mk
    (((s.toList.dropWhile Char.isWhitespace).reverse.dropWhile Char.isWhitespace).reverse)

/-- The delta lookup of `process_chat_sse` (chat_completions.rs:305-310):
`chunk.get("choices").and_then(get 0).and_then(get "delta")
.and_then(get "content").and_then(as_str)`. -/
def contentDelta (chunk : Json) : Option String :=
  ((((chunk.getField "choices").bind (fun c => c.getIdx 0)).bind
    (fun c => c.getField "delta")).bind (fun d => d.getField "content")).bind Json.asStr

/-- `process_chat_sse` (chat_completions.rs:257-323) as a function from the
framed input to the sequence of items it sends on the event channel, in
order.  A clean end of input emits `Completed("")`; a transport error emits a
single `Stream` error and stops; a `[DONE]` sentinel (after trimming) emits
`Completed("")` and stops; a payload that fails to parse as JSON, or parses
but carries no `choices[0].delta.content` string, is skipped; otherwise an
assistant message with the delta text is emitted and processing continues.
(`process_github_copilot_sse`, lines 326-398, computes the same function.) -/
def process_chat_sse : List SseItem → List (Except CodexErr ResponseEvent)
  | [] => [.ok (.completed "")]
  | .transportError detail :: _ => [.error (.stream detail)]
  | .frame data :: rest =>
    if rust_trim data = "[DONE]" then [.ok (.completed "")]
    else
      match Json.parse data with
      | none => process_chat_sse rest
      | some chunk =>
        match contentDelta chunk with
        | some content =>
          .ok (.outputItemDone (.message "assistant" [.outputText content]))
            :: process_chat_sse rest
        | none => process_chat_sse rest

/-! ## Aggregation adapter (`AggregatedChatStream`, chat_completions.rs:416-512) -/

/-- The adapter's own state (chat_completions.rs:416-420): the running
`cumulative` text and the deferred `pending_completed` event.  The wrapped
source stream is passed separately, as the list of items it has yet to
yield. -/
structure AggregatedChatStream where
  cumulative : String
  pending_completed : Option ResponseEvent
  deriving DecidableEq, Repr

/-- `aggregate()` (chat_completions.rs:503-509): the initial adapter state. -/
def AggregatedChatStream.init : AggregatedChatStream := ⟨"", none⟩

/-- The accumulation step of `poll_next` on an `OutputItemDone` item
(chat_completions.rs:443-452): for an assistant message, append the first
`OutputText` entry of its content (`iter().find_map`) to `cumulative`;
anything else leaves `cumulative` unchanged. -/
def firstOutputText : List ContentItem → Option String
  | [] => none
  | .outputText t :: _ => some t
  | _ :: rest => firstOutputText rest

/-- `cumulative` after `poll_next` processes one `OutputItemDone(item)`. -/
def accumulate (cumulative : String) (item : ResponseItem) : String :=
  match item with
  | .message role content =>
    if role = "assistant" then
      match firstOutputText content with
      | some t => cumulative ++ t
      | none => cumulative
    else cumulative
  | .otherItem => cumulative

/-- The inner `loop` of `poll_next` (chat_completions.rs:436-478), which
polls the wrapped source until a decision: source exhausted (`none` result),
error propagated, or — on `Completed` — either the aggregated message is
yielded (with the `Completed` stashed into `pending_completed`) or, with
empty `cumulative`, the `Completed` is forwarded directly.  Every
`OutputItemDone` is consumed by the `continue` after (possibly) accumulating.
Returns the yielded item (if any), the successor state, and the source items
not yet consumed. -/
def AggregatedChatStream.poll_loop (cumulative : String) :
    List (Except CodexErr ResponseEvent) →
      Option (Except CodexErr ResponseEvent) × AggregatedChatStream
        × List (Except CodexErr ResponseEvent)
  | [] => (none, ⟨cumulative, none⟩, [])
  | .error e :: rest => (some (.error e), ⟨cumulative, none⟩, rest)
  | .ok (.outputItemDone item) :: rest =>
    AggregatedChatStream.poll_loop (accumulate cumulative item) rest
  | .ok (.completed response_id) :: rest =>
    if cumulative ≠ "" then
      (some (.ok (.outputItemDone (.message "assistant" [.outputText cumulative]))),
       ⟨"", some (.completed response_id)⟩, rest)
    else
      (some (.ok (.completed response_id)), ⟨cumulative, none⟩, rest)

/-- `poll_next` (chat_completions.rs:428-479): flush a buffered
`pending_completed` first; otherwise run the polling loop.  (A `Pending`
poll of the source cannot arise for a list-modelled source.) -/
def AggregatedChatStream.poll_next (st : AggregatedChatStream)
    (src : List (Except CodexErr ResponseEvent)) :
    Option (Except CodexErr ResponseEvent) × AggregatedChatStream
      × List (Except CodexErr ResponseEvent) :=
  match st.pending_completed with
  | some ev => (some (.ok ev), ⟨st.cumulative, none⟩, src)
  | none => AggregatedChatStream.poll_loop st.cumulative src

/-- Drive the adapter by repeated `poll_next` until it reports exhaustion,
collecting every yielded item in order — the consumer's
`while let Some(event) = stream.next()` loop.  `fuel` bounds the number of
polls; every poll that yields either consumes at least one source item or
flushes `pending_completed`, so `2 * |src| + 1` polls (as supplied by
`aggRun`) are always enough to reach exhaustion. -/
def aggRunGo : Nat → AggregatedChatStream → List (Except CodexErr ResponseEvent) →
    List (Except CodexErr ResponseEvent)
  | 0, _, _ => []
  | fuel + 1, st, src =>
    match AggregatedChatStream.poll_next st src with
    | (none, _, _) => []
    | (some ev, st2, src2) => ev :: aggRunGo fuel st2 src2

/-- The full output sequence of the adapter over a source item list. -/
def aggRun (st : AggregatedChatStream) (src : List (Except CodexErr ResponseEvent)) :
    List (Except CodexErr ResponseEvent) :=
  aggRunGo (2 * src.length + 1) st src

/-- A decoder-shaped assistant delta event: what `process_chat_sse` emits for
one content-carrying frame (chat_completions.rs:312-321). -/
def assistantDelta (t : String) : Except CodexErr ResponseEvent :=
  .ok (.outputItemDone (.message "assistant" [.outputText t]))

/-! ## Theorems: request dispatcher -/

/-- One unfolding of the retry branch: a retryable response below the ceiling
prepends the computed delay to the sleep trace, adds one send, and continues
with the incremented attempt counter. -/
theorem dispatchGo_retry_step (maxRetries : Nat) (backoff : Nat → Nat)
    (responses : Nat → SendOutcome) (attempt fuel status : Nat) (ra : Option String)
    (body : String)
    (h1 : responses (attempt + 1) = .httpResponse status ra body)
    (h2 : isRetryableStatus status = true)
    (h3 : ¬ maxRetries < attempt + 1) :
    dispatchGo maxRetries backoff responses attempt (fuel + 1) =
      ⟨(dispatchGo maxRetries backoff responses (attempt + 1) fuel).sends + 1,
       (match retryAfterSecs ra with
        | some s => s * 1000 % 2 ^ 64
        | none => backoff (attempt + 1)) ::
         (dispatchGo maxRetries backoff responses (attempt + 1) fuel).sleeps,
       (dispatchGo maxRetries backoff responses (attempt + 1) fuel).result⟩ := by
  simp [dispatchGo, h1, h2, h3]

/-- When every send receives status 500, every iteration of the loop after
the first `maxRetries` ones hits the retry ceiling: from loop counter
`attempt` with `attempt + (f + 1) = maxRetries + 1`, the loop performs
exactly `f + 1` further sends and ends in `RetryLimit(500)`. -/
theorem dispatchGo_all500 (maxRetries : Nat) (backoff : Nat → Nat)
    (responses : Nat → SendOutcome) (ra : Nat → Option String) (body : Nat → String)
    (h : ∀ a, responses a = .httpResponse 500 (ra a) (body a)) :
    ∀ f attempt, attempt + (f + 1) = maxRetries + 1 →
      (dispatchGo maxRetries backoff responses attempt (f + 1)).sends = f + 1 ∧
      (dispatchGo maxRetries backoff responses attempt (f + 1)).result =
        .failed (.retryLimit 500) := by
  intro f
  induction f with
  | zero =>
    intro attempt hA
    have hAeq : attempt = maxRetries := by omega
    subst hAeq
    simp [dispatchGo, h, isRetryableStatus]
  | succ n ih =>
    intro attempt hA
    have hle : ¬ maxRetries < attempt + 1 := by omega
    have hrec := ih (attempt + 1) (by omega)
    rw [dispatchGo_retry_step maxRetries backoff responses attempt (n + 1) 500
      (ra (attempt + 1)) (body (attempt + 1)) (h (attempt + 1)) (by decide) hle]
    exact ⟨by simp [hrec.1], by simp [hrec.2]⟩

/-- C3: for every execution of the dispatch loop in which each send attempt
receives a response with status 500, with `max_retries = N` the dispatcher
performs exactly `N + 1` sends and then returns `RetryLimit(500)`. -/
theorem dispatch_all500_retry_limit (N : Nat) (backoff : Nat → Nat)
    (responses : Nat → SendOutcome) (ra : Nat → Option String) (body : Nat → String)
    (h : ∀ a, responses a = .httpResponse 500 (ra a) (body a)) :
    (dispatchLoop N backoff responses).sends = N + 1 ∧
    (dispatchLoop N backoff responses).result = .failed (.retryLimit 500) := by
  have := dispatchGo_all500 N backoff responses ra body h N 0 (by omega)
  simpa [dispatchLoop] using this

/-- Witness for C3: with `max_retries = 2` and every response 500, the loop
sends 3 times and returns `RetryLimit(500)`. -/
theorem dispatch_all500_retry_limit_witness :
    (dispatchLoop 2 (fun _ => 5) (fun _ => .httpResponse 500 none "oops")).sends = 3 ∧
    (dispatchLoop 2 (fun _ => 5) (fun _ => .httpResponse 500 none "oops")).result =
      .failed (.retryLimit 500) :=
  dispatch_all500_retry_limit 2 (fun _ => 5) (fun _ => .httpResponse 500 none "oops")
    (fun _ => none) (fun _ => "oops") (fun _ => rfl)

/-- C4: a response with a non-retryable status (anything other than 429 or
5xx) makes the dispatcher send exactly once, sleep never, and return
`UnexpectedStatus(status, body)` immediately, for every `max_retries`. -/
theorem dispatch_non_retryable_once (maxRetries : Nat) (backoff : Nat → Nat)
    (responses : Nat → SendOutcome) (status : Nat) (ra : Option String) (body : String)
    (h1 : responses 1 = .httpResponse status ra body)
    (h2 : isRetryableStatus status = false) :
    dispatchLoop maxRetries backoff responses =
      ⟨1, [], .failed (.unexpectedStatus status body)⟩ := by
  simp [dispatchLoop, dispatchGo, h1, h2]

/-- Witness for C4: a 404 response is answered by `UnexpectedStatus(404, body)`
after a single send, with `max_retries = 7`. -/
theorem dispatch_non_retryable_once_witness :
    dispatchLoop 7 (fun _ => 5) (fun _ => .httpResponse 404 none "nf") =
      ⟨1, [], .failed (.unexpectedStatus 404 "nf")⟩ :=
  dispatch_non_retryable_once 7 (fun _ => 5) (fun _ => .httpResponse 404 none "nf")
    404 none "nf" rfl (by decide)

/-- C8 counterexample: `Retry-After: 18446744073709552` is accepted by
`parse::<u64>()` (it is below `2^64`), but the `u64` product `s * 1_000`
wraps, so the dispatcher sleeps `(s * 1000) mod 2^64 = 384` ms — not the
`s * 1000` ms that a plain seconds-to-milliseconds conversion asserts. -/
theorem dispatch_retry_delay_overflow :
    retryAfterSecs (some "18446744073709552") = some 18446744073709552 ∧
    (dispatchGo 3 (fun a => 100 * a)
      (fun _ => .httpResponse 429 (some "18446744073709552") "b")
      0 4).sleeps.head? = some 384 ∧
    (384 : Nat) ≠ 18446744073709552 * 1000 := by
  refine ⟨by decide, by decide, by decide⟩

/-- C8 amended: on a retryable response (429 or 5xx) within the retry
ceiling, the delay slept before the next attempt is the `Retry-After` header
value converted from seconds to milliseconds by the wrapping `u64`
multiplication — `s * 1000 % 2^64` — when the header is present and parseable
as a `u64`, which coincides with `s * 1000` whenever that product fits in a
`u64`, and is `backoff(attempt)` otherwise. -/
theorem dispatch_retry_delay (maxRetries : Nat) (backoff : Nat → Nat)
    (responses : Nat → SendOutcome) (attempt fuel status : Nat) (ra : Option String)
    (body : String)
    (h1 : responses (attempt + 1) = .httpResponse status ra body)
    (h2 : isRetryableStatus status = true)
    (h3 : attempt + 1 ≤ maxRetries) :
    (∀ s, retryAfterSecs ra = some s →
      (dispatchGo maxRetries backoff responses attempt (fuel + 1)).sleeps.head? =
        some (s * 1000 % 2 ^ 64)) ∧
    (∀ s, retryAfterSecs ra = some s → s * 1000 < 2 ^ 64 →
      (dispatchGo maxRetries backoff responses attempt (fuel + 1)).sleeps.head? =
        some (s * 1000)) ∧
    (retryAfterSecs ra = none →
      (dispatchGo maxRetries backoff responses attempt (fuel + 1)).sleeps.head? =
        some (backoff (attempt + 1))) := by
  have hlt : ¬ maxRetries < attempt + 1 := by omega
  rw [dispatchGo_retry_step maxRetries backoff responses attempt fuel status ra body
    h1 h2 hlt]
  refine ⟨?_, ?_, ?_⟩
  · intro s hs
    simp [hs]
  · intro s hs hfits
    simp [hs]
    have h64 : (2 : Nat) ^ 64 = 18446744073709551616 := by norm_num
    rw [h64] at hfits
    exact hfits
  · intro hs
    simp [hs]

/-- Witness for the C8 amendment: with `Retry-After: 7` the slept delay is
7000 ms (the product fits in a `u64`); with the unparseable `Retry-After: x`
it is `backoff(1) = 100`. -/
theorem dispatch_retry_delay_witness :
    (dispatchGo 3 (fun a => 100 * a) (fun _ => .httpResponse 429 (some "7") "b")
      0 4).sleeps.head? = some 7000 ∧
    (dispatchGo 3 (fun a => 100 * a) (fun _ => .httpResponse 429 (some "x") "b")
      0 4).sleeps.head? = some 100 :=
  ⟨(dispatch_retry_delay 3 (fun a => 100 * a)
      (fun _ => .httpResponse 429 (some "7") "b") 0 3 429 (some "7") "b" rfl
      (by decide) (by omega)).2.1 7 (by decide) (by decide),
   (dispatch_retry_delay 3 (fun a => 100 * a)
      (fun _ => .httpResponse 429 (some "x") "b") 0 3 429 (some "x") "b" rfl
      (by decide) (by omega)).2.2 (by decide)⟩

/-! ## Theorems: token validity -/

/-- C7: a `GithubCopilotToken` is valid exactly when `now < expires_at − 5
minutes`; in particular a token expiring in 4 minutes reports invalid and one
expiring in 10 minutes reports valid. -/
theorem token_validity_buffer (now : Int) (key : String) :
    (GithubCopilotToken.mk key (now + 4 * 60)).is_valid now = false ∧
    (GithubCopilotToken.mk key (now + 10 * 60)).is_valid now = true ∧
    (∀ t : GithubCopilotToken, t.is_valid now = true ↔ now < t.expires_at - 5 * 60) := by
  refine ⟨?_, ?_, fun t => ?_⟩
  · simp only [GithubCopilotToken.is_valid, decide_eq_false_iff_not]
    omega
  · simp only [GithubCopilotToken.is_valid, decide_eq_true_eq]
    omega
  · simp only [GithubCopilotToken.is_valid, decide_eq_true_eq]
    omega

/-! ## Theorems: event decoder -/

/-- The payload `data: \x7b"choices":[\x7b"delta":\x7b"content":"Hi"\x7d\x7d]\x7d`. -/
def frameHi : String := "\x7b\"choices\":[\x7b\"delta\":\x7b\"content\":\"Hi\"\x7d\x7d]\x7d"

/-- The payload carrying the delta `" there"`. -/
def frameThere : String := "\x7b\"choices\":[\x7b\"delta\":\x7b\"content\":\" there\"\x7d\x7d]\x7d"

/-- C5: on the frame stream `Hi`, `" there"`, `[DONE]` the decoder emits
exactly `OutputItemDone("Hi")`, `OutputItemDone(" there")`, `Completed("")`,
in that order and nothing else; and any frame whose payload fails to parse as
JSON (and is not the sentinel) is skipped without producing an error or an
event. -/
theorem process_chat_sse_hi_there (d : String) (rest : List SseItem)
    (h1 : Json.parse d = none) (h2 : rust_trim d ≠ "[DONE]") :
    process_chat_sse [.frame frameHi, .frame frameThere, .frame "[DONE]"] =
      [.ok (.outputItemDone (.message "assistant" [.outputText "Hi"])),
       .ok (.outputItemDone (.message "assistant" [.outputText " there"])),
       .ok (.completed "")] ∧
    process_chat_sse (.frame d :: rest) = process_chat_sse rest := by
  constructor
  · rfl
  · simp [process_chat_sse, h1, h2]

/-- Witness for C5, at the malformed payload `not-json`. -/
theorem process_chat_sse_hi_there_witness :
    process_chat_sse [.frame frameHi, .frame frameThere, .frame "[DONE]"] =
      [.ok (.outputItemDone (.message "assistant" [.outputText "Hi"])),
       .ok (.outputItemDone (.message "assistant" [.outputText " there"])),
       .ok (.completed "")] ∧
    process_chat_sse [.frame "not-json"] = process_chat_sse [] :=
  process_chat_sse_hi_there "not-json" [] rfl (by decide)

/-! ## Theorems: aggregation adapter -/

/-- The decoder output of the `Hi` / `" there"` turn, as fed to the adapter. -/
def hiSrc : List (Except CodexErr ResponseEvent) :=
  [.ok (.outputItemDone (.message "assistant" [.outputText "Hi"])),
   .ok (.outputItemDone (.message "assistant" [.outputText " there"])),
   .ok (.completed "")]

/-- C6: aggregating `OutputItemDone("Hi")`, `OutputItemDone(" there")`,
`Completed("")` yields exactly `OutputItemDone("Hi there")` then
`Completed("")` — two events, not three — with the first pull yielding the
aggregated message (stashing the `Completed`), the second pull flushing the
stashed `Completed`, and the third pull reporting exhaustion. -/
theorem aggregate_hi_there :
    aggRun .init hiSrc =
      [.ok (.outputItemDone (.message "assistant" [.outputText "Hi there"])),
       .ok (.completed "")] ∧
    AggregatedChatStream.poll_next .init hiSrc =
      (some (.ok (.outputItemDone (.message "assistant" [.outputText "Hi there"]))),
       ⟨"", some (.completed "")⟩, []) ∧
    AggregatedChatStream.poll_next ⟨"", some (.completed "")⟩ [] =
      (some (.ok (.completed "")), ⟨"", none⟩, []) ∧
    AggregatedChatStream.poll_next ⟨"", none⟩ [] = (none, ⟨"", none⟩, []) := by
  refine ⟨?_, ?_, ?_, ?_⟩ <;> rfl

/-- The polling loop over a run of assistant deltas followed by `Completed`:
it accumulates every delta in arrival order and decides at the `Completed`,
yielding either the aggregated message (stashing the `Completed`) or, when
nothing accumulated, the `Completed` itself. -/
theorem poll_loop_deltas (ts : List String) (cum : String) (response_id : String)
    (rest : List (Except CodexErr ResponseEvent)) :
    AggregatedChatStream.poll_loop cum
        (ts.map assistantDelta ++ .ok (.completed response_id) :: rest) =
      (if ts.foldl (· ++ ·) cum ≠ "" then
        (some (.ok (.outputItemDone
          (.message "assistant" [.outputText (ts.foldl (· ++ ·) cum)]))),
         ⟨"", some (.completed response_id)⟩, rest)
       else
        (some (.ok (.completed response_id)), ⟨ts.foldl (· ++ ·) cum, none⟩, rest)) := by
  induction ts generalizing cum with
  | nil => simp [AggregatedChatStream.poll_loop]
  | cons t ts ih =>
    simpa [AggregatedChatStream.poll_loop, accumulate, firstOutputText, assistantDelta]
      using ih (cum ++ t)

/-- Stepping lemma: a poll that yields an item prepends it to the run. -/
theorem aggRunGo_yield {st : AggregatedChatStream}
    {src : List (Except CodexErr ResponseEvent)} {ev : Except CodexErr ResponseEvent}
    {st2 : AggregatedChatStream} {src2 : List (Except CodexErr ResponseEvent)}
    (fuel : Nat) (h : AggregatedChatStream.poll_next st src = (some ev, st2, src2)) :
    aggRunGo (fuel + 1) st src = ev :: aggRunGo fuel st2 src2 := by
  simp [aggRunGo, h]

/-- Stepping lemma: a poll that reports exhaustion ends the run. -/
theorem aggRunGo_stop {st : AggregatedChatStream}
    {src : List (Except CodexErr ResponseEvent)} (fuel : Nat)
    (st2 : AggregatedChatStream) (src2 : List (Except CodexErr ResponseEvent))
    (h : AggregatedChatStream.poll_next st src = (none, st2, src2)) :
    aggRunGo (fuel + 1) st src = [] := by
  simp [aggRunGo, h]

/-- The adapter's full output over one turn, with enough fuel: either the
single `Completed` (nothing accumulated) or the aggregated message
immediately followed by the `Completed`. -/
theorem aggRunGo_turn (f : Nat) (ts : List String) (response_id : String) :
    aggRunGo (f + 3) .init (ts.map assistantDelta ++ [.ok (.completed response_id)]) =
      (if ts.foldl (· ++ ·) "" = "" then
        [(.ok (.completed response_id) : Except CodexErr ResponseEvent)]
       else
        [.ok (.outputItemDone
          (.message "assistant" [.outputText (ts.foldl (· ++ ·) "")])),
         .ok (.completed response_id)]) := by
  have hp := poll_loop_deltas ts "" response_id []
  by_cases hfull : ts.foldl (· ++ ·) "" = ""
  · have h1 : AggregatedChatStream.poll_next .init
        (ts.map assistantDelta ++ [.ok (.completed response_id)]) =
        (some (.ok (.completed response_id)), ⟨ts.foldl (· ++ ·) "", none⟩, []) := by
      simp only [AggregatedChatStream.poll_next, AggregatedChatStream.init]
      simpa [hfull] using hp
    have h2 : AggregatedChatStream.poll_next ⟨ts.foldl (· ++ ·) "", none⟩ [] =
        (none, ⟨ts.foldl (· ++ ·) "", none⟩, []) := by
      simp [AggregatedChatStream.poll_next, AggregatedChatStream.poll_loop]
    rw [if_pos hfull, show f + 3 = (f + 2) + 1 from rfl, aggRunGo_yield (f + 2) h1,
      show f + 2 = (f + 1) + 1 from rfl, aggRunGo_stop (f + 1) _ _ h2]
  · have h1 : AggregatedChatStream.poll_next .init
        (ts.map assistantDelta ++ [.ok (.completed response_id)]) =
        (some (.ok (.outputItemDone
          (.message "assistant" [.outputText (ts.foldl (· ++ ·) "")]))),
         ⟨"", some (.completed response_id)⟩, []) := by
      simp only [AggregatedChatStream.poll_next, AggregatedChatStream.init]
      simpa [hfull] using hp
    have h2 : AggregatedChatStream.poll_next ⟨"", some (.completed response_id)⟩ [] =
        (some (.ok (.completed response_id)), ⟨"", none⟩, []) := rfl
    have h3 : AggregatedChatStream.poll_next ⟨"", none⟩ [] =
        (none, ⟨"", none⟩, []) := rfl
    rw [if_neg hfull, show f + 3 = (f + 2) + 1 from rfl, aggRunGo_yield (f + 2) h1,
      show f + 2 = (f + 1) + 1 from rfl, aggRunGo_yield (f + 1) h2,
      aggRunGo_stop f _ _ h3]

/-- C2: over a turn whose wrapped source produces the assistant deltas `ts`
(in order) and then `Completed`, the adapter yields at most one
`OutputItemDone` before the terminating `Completed`, and its text is the
exact concatenation of the deltas in arrival order (`ts.foldl (· ++ ·) ""`);
with no accumulated text the `Completed` alone is yielded. -/
theorem aggregate_turn_invariant (ts : List String) (response_id : String) :
    aggRun .init (ts.map assistantDelta ++ [.ok (.completed response_id)]) =
      (if ts.foldl (· ++ ·) "" = "" then
        [(.ok (.completed response_id) : Except CodexErr ResponseEvent)]
       else
        [.ok (.outputItemDone
          (.message "assistant" [.outputText (ts.foldl (· ++ ·) "")])),
         .ok (.completed response_id)]) := by
  have hl : 2 * (ts.map assistantDelta
      ++ [(.ok (.completed response_id) : Except CodexErr ResponseEvent)]).length + 1
      = 2 * ts.length + 3 := by
    simp [List.length_append, List.length_map]
    omega
  unfold aggRun
  rw [hl]
  exact aggRunGo_turn (2 * ts.length) ts response_id

/-- C1 counterexample: an `OutputItemDone` with role `"user"` is not passed
through by the adapter — it appears nowhere in the adapter's output, which
consists of the bare `Completed` alone. -/
theorem aggregate_drops_non_assistant :
    aggRun .init
        [.ok (.outputItemDone (.message "user" [.outputText "ping"])),
         .ok (.completed "done")] = [.ok (.completed "done")] ∧
    (.ok (.outputItemDone (.message "user" [.outputText "ping"]))
        : Except CodexErr ResponseEvent) ∉
      aggRun .init
        [.ok (.outputItemDone (.message "user" [.outputText "ping"])),
         .ok (.completed "done")] := by
  refine ⟨rfl, ?_⟩
  intro hmem
  rw [show aggRun .init
      [.ok (.outputItemDone (.message "user" [.outputText "ping"])),
       .ok (.completed "done")] =
      [(.ok (.completed "done") : Except CodexErr ResponseEvent)] from rfl] at hmem
  simp at hmem

/-- C1 amended: an `OutputItemDone` whose item is a non-assistant message, or
any non-message item, is swallowed by the adapter — consumed without being
yielded and without changing `cumulative` — rather than passed through. -/
theorem aggregate_swallows_non_assistant (role : String) (content : List ContentItem)
    (h : role ≠ "assistant") (cum : String)
    (rest : List (Except CodexErr ResponseEvent)) :
    AggregatedChatStream.poll_loop cum
        (.ok (.outputItemDone (.message role content)) :: rest) =
      AggregatedChatStream.poll_loop cum rest ∧
    AggregatedChatStream.poll_loop cum (.ok (.outputItemDone .otherItem) :: rest) =
      AggregatedChatStream.poll_loop cum rest := by
  constructor <;> simp [AggregatedChatStream.poll_loop, accumulate, h]

/-- Witness for the C1 amendment, at a `"user"` message and a non-message
item ahead of a `Completed`. -/
theorem aggregate_swallows_non_assistant_witness :
    AggregatedChatStream.poll_loop ""
        [.ok (.outputItemDone (.message "user" [.outputText "ping"])),
         .ok (.completed "done")] =
      AggregatedChatStream.poll_loop "" [.ok (.completed "done")] ∧
    AggregatedChatStream.poll_loop ""
        [.ok (.outputItemDone .otherItem), .ok (.completed "done")] =
      AggregatedChatStream.poll_loop "" [.ok (.completed "done")] :=
  aggregate_swallows_non_assistant "user" [.outputText "ping"] (by decide) ""
    [.ok (.completed "done")]

/-! ## Theorems: token supplier -/

/-- C9 counterexample: with an externally supplied environment token present
and no static provider key, the token supplier still performs the HTTPS
token-exchange step — using the environment token as the exchange's OAuth
credential — and the resulting bearer is the exchanged token, not the
environment token verbatim. -/
theorem env_token_still_exchanged :
    (get_github_copilot_api_token (some "env-oauth") none
      (fun _ => .success ⟨"exchanged-key", 999⟩)).1 = ["env-oauth"] ∧
    (get_github_copilot_api_token (some "env-oauth") none
      (fun _ => .success ⟨"exchanged-key", 999⟩)).2 = .ok ⟨"exchanged-key", 999⟩ ∧
    (get_github_copilot_api_token (some "env-oauth") none
      (fun _ => .success ⟨"exchanged-key", 999⟩)).1 ≠ [] := by
  refine ⟨rfl, rfl, ?_⟩
  intro hnil
  rw [show (get_github_copilot_api_token (some "env-oauth") none
    (fun _ => .success ⟨"exchanged-key", 999⟩)).1 = ["env-oauth"] from rfl] at hnil
  simp at hnil

/-- C9 amended: a non-empty externally supplied environment token replaces
the locally discovered OAuth artifact as the credential for the HTTPS token
exchange, which is still performed (exactly one exchange request, bearing the
environment token); the bearer credential is whatever the exchange returns. -/
theorem env_token_used_for_exchange (t : String) (h : t ≠ "")
    (localArtifact : Option String) (exchange : String → ExchangeOutcome) :
    (get_github_copilot_api_token (some t) localArtifact exchange).1 = [t] ∧
    (∀ r, exchange t = .success r →
      (get_github_copilot_api_token (some t) localArtifact exchange).2 =
        .ok (GithubCopilotToken.from_response r)) := by
  constructor
  · unfold get_github_copilot_api_token
    simp only [h, if_true, ne_eq, not_false_eq_true, ite_true]
    cases exchange t <;> simp
  · intro r hr
    unfold get_github_copilot_api_token
    simp [h, hr]

/-- Witness for the C9 amendment: the environment token `tok` is sent to the
exchange, whose response becomes the bearer. -/
theorem env_token_used_for_exchange_witness :
    (get_github_copilot_api_token (some "tok") none
      (fun _ => .success ⟨"k", 7⟩)).1 = ["tok"] ∧
    (get_github_copilot_api_token (some "tok") none
      (fun _ => .success ⟨"k", 7⟩)).2 = .ok ⟨"k", 7⟩ :=
  ⟨(env_token_used_for_exchange "tok" (by decide) none
      (fun _ => .success ⟨"k", 7⟩)).1,
   (env_token_used_for_exchange "tok" (by decide) none
      (fun _ => .success ⟨"k", 7⟩)).2 ⟨"k", 7⟩ rfl⟩

/-- C10: on the GitHub Copilot path with no static API key, when the token
exchange succeeds but the fresh token fails the 5-minute validity check, the
dispatcher returns `UnexpectedStatus(401, message)` — not an `Auth` error —
with zero sends performed. -/
theorem copilot_invalid_token_unauthorized (envToken localArtifact : Option String)
    (exchange : String → ExchangeOutcome) (now : Int) (maxRetries : Nat)
    (backoff : Nat → Nat) (responses : Nat → SendOutcome) (tok : GithubCopilotToken)
    (hx : (get_github_copilot_api_token envToken localArtifact exchange).2 = .ok tok)
    (hv : tok.is_valid now = false) :
    stream_github_copilot_completions none envToken localArtifact exchange now
        maxRetries backoff responses =
      ⟨0, [], .failed (.unexpectedStatus 401
        "GitHub Copilot token has expired, please refresh your login")⟩ := by
  simp [stream_github_copilot_completions, resolve_copilot_api_key, hx, hv]

/-- Witness for C10: an exchange returning a token that expired at epoch 0,
checked at `now = 0`, aborts with the 401 before any send. -/
theorem copilot_invalid_token_unauthorized_witness :
    stream_github_copilot_completions none (some "t") none
        (fun _ => .success ⟨"k", 0⟩) 0 5 (fun _ => 1) (fun _ => .success) =
      ⟨0, [], .failed (.unexpectedStatus 401
        "GitHub Copilot token has expired, please refresh your login")⟩ :=
  copilot_invalid_token_unauthorized (some "t") none (fun _ => .success ⟨"k", 0⟩)
    0 5 (fun _ => 1) (fun _ => .success) ⟨"k", 0⟩ rfl (by decide)

end Codex
